import Mathlib

/-!
Verification of the sampled Azure SDK for Python sources.

The main subject is the Key Vault cryptography adapter
(`sdk/keyvault/azure-keyvault-keys/azure/keyvault/keys/crypto/_models.py`),
plus the hybridcompute client `_send_request` method, the file-share mock
storage transport, and the Cosmos partition-key / etag behavior exercised by
the Cosmos CRUD test.

Python exceptions are modelled with `Except PyErr`; exception messages are
not tracked, only the exception class.  Python `bytes` values are modelled as
`List Nat`.
-/

namespace AzureSDK

/-- Python exception classes raised by the modelled code.  Messages are not
modelled. -/
inductive PyErr where
  | valueError
  | typeError
  | attributeError
  | invalidSignature
  | notImplementedError
  | httpError (status : Nat)
  deriving DecidableEq, Repr

/-- Hash algorithm classes from `cryptography.hazmat.primitives.hashes` that the
adapter inspects, plus a constructor for every other hash algorithm class. -/
inductive HashAlg where
  | sha1
  | sha256
  | sha384
  | sha512
  | otherHash (name : String)
  deriving DecidableEq, Repr

/-- A mask generation function argument: `MGF1` (with its own hash), or any
object that is not an `MGF1` instance. -/
inductive MGF where
  | mgf1 (alg : HashAlg)
  | otherMgf
  deriving DecidableEq, Repr

/-- `AsymmetricPadding` values from `cryptography`, as inspected by the
adapter: `OAEP` (carrying its MGF and hash), `PKCS1v15`, `PSS` (carrying its
MGF), and any other padding class. -/
inductive AsymmetricPadding where
  | oaep (mgf : MGF) (algorithm : HashAlg)
  | pkcs1v15
  | pss (mgf : MGF)
  | otherPadding (name : String)
  deriving DecidableEq, Repr

/-- The Key Vault `EncryptionAlgorithm` enum members used by the adapter. -/
inductive EncryptionAlgorithm where
  | rsa_oaep
  | rsa_oaep_256
  | rsa1_5
  deriving DecidableEq, Repr

/-- The Key Vault `SignatureAlgorithm` enum members used by the adapter. -/
inductive SignatureAlgorithm where
  | rs256
  | rs384
  | rs512
  | ps256
  | ps384
  | ps512
  deriving DecidableEq, Repr

/-- `SIGN_ALGORITHM_MAP` from `_models.py`: a dict keyed on the hash algorithm
class; `dict.get` on a missing key yields `None`. -/
def SIGN_ALGORITHM_MAP : HashAlg → Option SignatureAlgorithm
  | .sha256 => some .rs256
  | .sha384 => some .rs384
  | .sha512 => some .rs512
  | _ => none

/-- `OAEP_MAP` from `_models.py`: SHA1 and SHA256 are the only supported OAEP
hash algorithm classes. -/
def OAEP_MAP : HashAlg → Option EncryptionAlgorithm
  | .sha1 => some .rsa_oaep
  | .sha256 => some .rsa_oaep_256
  | _ => none

/-- `PSS_MAP` from `_models.py`: maps each RS signature algorithm to its PS
equivalent; `dict.get` on any other key yields `None`. -/
def PSS_MAP : SignatureAlgorithm → Option SignatureAlgorithm
  | .rs256 => some .ps256
  | .rs384 => some .ps384
  | .rs512 => some .ps512
  | _ => none

/-- `get_encryption_algorithm` from `_models.py`.  For `OAEP` the hash
algorithm is looked up first (raising `ValueError` when unsupported), then the
MGF is checked to be an `MGF1` instance; `PKCS1v15` maps to `rsa1_5`; any
other padding raises `ValueError`. -/
def get_encryption_algorithm (padding : AsymmetricPadding) :
    Except PyErr EncryptionAlgorithm :=
  match padding with
  | .oaep mgf algorithm =>
    match OAEP_MAP algorithm with
    | none => .error .valueError
    | some mapped_algorithm =>
      match mgf with
      | .mgf1 _ => .ok mapped_algorithm
      | .otherMgf => .error .valueError
  | .pkcs1v15 => .ok .rsa1_5
  | _ => .error .valueError

/-- `get_signature_algorithm` from `_models.py`.  The hash algorithm is looked
up first in `SIGN_ALGORITHM_MAP` (raising `ValueError` when unsupported).  For
`PSS` padding the algorithm is rewritten through `PSS_MAP.get`, whose result
type is an `Option` because the Python code passes the `dict.get` result
through a static `cast`; the MGF must then be an `MGF1` instance.  Any padding
other than `PSS` or `PKCS1v15` raises `ValueError`. -/
def get_signature_algorithm (padding : AsymmetricPadding) (algorithm : HashAlg) :
    Except PyErr (Option SignatureAlgorithm) :=
  match SIGN_ALGORITHM_MAP algorithm with
  | none => .error .valueError
  | some mapped_algorithm =>
    match padding with
    | .pss mgf =>
      match mgf with
      | .mgf1 _ => .ok (PSS_MAP mapped_algorithm)
      | .otherMgf => .error .valueError
    | .pkcs1v15 => .ok (some mapped_algorithm)
    | _ => .error .valueError

/-- The `JsonWebKey` model from `azure.keyvault.keys._models`, with the fields
listed in its `_FIELDS` tuple.  Byte-string fields are `Option (List Nat)`
(`None` or `bytes`); `key_ops` is a list of operation names. -/
structure JsonWebKey where
  kid : Option String
  kty : Option String
  key_ops : List String
  n : Option (List Nat)
  e : Option (List Nat)
  d : Option (List Nat)
  dp : Option (List Nat)
  dq : Option (List Nat)
  qi : Option (List Nat)
  p : Option (List Nat)
  q : Option (List Nat)
  k : Option (List Nat)
  t : Option (List Nat)
  crv : Option String
  x : Option (List Nat)
  y : Option (List Nat)
  deriving DecidableEq, Repr

/-- The field-by-field comparison loop of `KeyVaultRSAPublicKey.__eq__`:
`all(getattr(a, field) == getattr(b, field) for field in _FIELDS)`. -/
def jwkFieldsEqual (a b : JsonWebKey) : Bool :=
  a.kid == b.kid && a.kty == b.kty && a.key_ops == b.key_ops &&
  a.n == b.n && a.e == b.e && a.d == b.d && a.dp == b.dp && a.dq == b.dq &&
  a.qi == b.qi && a.p == b.p && a.q == b.q && a.k == b.k && a.t == b.t &&
  a.crv == b.crv && a.x == b.x && a.y == b.y

/-- `EncryptResult` from `_models.py` (iv/tag/aad keywords omitted: the
adapter never reads them). -/
structure EncryptResult where
  key_id : Option String
  algorithm : EncryptionAlgorithm
  ciphertext : List Nat

/-- `DecryptResult` from `_models.py`. -/
structure DecryptResult where
  key_id : Option String
  algorithm : EncryptionAlgorithm
  plaintext : List Nat

/-- `SignResult` from `_models.py`. -/
structure SignResult where
  key_id : Option String
  algorithm : Option SignatureAlgorithm
  signature : List Nat

/-- `VerifyResult` from `_models.py`. -/
structure VerifyResult where
  key_id : Option String
  is_valid : Bool
  algorithm : Option SignatureAlgorithm

/-- The remote `CryptographyClient`, abstracted as the four operations the
adapter delegates to.  The signature operations accept an
`Option SignatureAlgorithm` because `get_signature_algorithm` statically
returns an optional value (see its docstring). -/
structure CryptographyClient where
  encrypt : EncryptionAlgorithm → List Nat → EncryptResult
  decrypt : EncryptionAlgorithm → List Nat → DecryptResult
  sign : Option SignatureAlgorithm → List Nat → SignResult
  verify : Option SignatureAlgorithm → List Nat → List Nat → VerifyResult

/-- The `algorithm` argument of `verify`/`sign`: a `Prehashed` instance or a
`HashAlgorithm`. -/
inductive SignAlgArg where
  | prehashed
  | hash (alg : HashAlg)
  deriving DecidableEq, Repr

/-- `KeyVaultRSAPublicKey`: a remote client plus optional local key
material. -/
structure KeyVaultRSAPublicKey where
  client : CryptographyClient
  key_material : Option JsonWebKey

/-- `KeyVaultRSAPublicKey.encrypt`: maps the padding to a Key Vault
algorithm, delegates to the client, and returns the result ciphertext. -/
def KeyVaultRSAPublicKey.encrypt (self : KeyVaultRSAPublicKey)
    (plaintext : List Nat) (padding : AsymmetricPadding) :
    Except PyErr (List Nat) := do
  let mapped_algorithm ← get_encryption_algorithm padding
  let result := self.client.encrypt mapped_algorithm plaintext
  return result.ciphertext

/-- `int.from_bytes(b, "big")`: big-endian interpretation; `None` raises
`TypeError`. -/
def int_from_bytes : Option (List Nat) → Except PyErr Nat
  | none => .error .typeError
  | some bs => .ok (bs.foldl (fun acc b => acc * 256 + b) 0)

/-- `RSAPublicNumbers` from `cryptography`. -/
structure RSAPublicNumbers where
  e : Nat
  n : Nat
  deriving DecidableEq, Repr

/-- `KeyVaultRSAPublicKey.public_numbers`: raises `ValueError` without key
material; otherwise reads `e` and `n` big-endian from the JWK. -/
def KeyVaultRSAPublicKey.public_numbers (self : KeyVaultRSAPublicKey) :
    Except PyErr RSAPublicNumbers :=
  match self.key_material with
  | none => .error .valueError
  | some k => do
    let e ← int_from_bytes k.e
    let n ← int_from_bytes k.n
    return { e := e, n := n }

/-- `KeyVaultRSAPublicKey.key_size`: raises `ValueError` without key
material; otherwise the bit length of the public modulus (what
`cryptography` computes for `public_key.key_size`). -/
def KeyVaultRSAPublicKey.key_size (self : KeyVaultRSAPublicKey) :
    Except PyErr Nat :=
  match self.key_material with
  | none => .error .valueError
  | some _ => do
    let pn ← self.public_numbers
    return Nat.size pn.n

/-- Serialization encodings from `cryptography.hazmat.primitives.serialization`. -/
inductive Encoding where
  | pem
  | der
  deriving DecidableEq, Repr

/-- Public serialization formats. -/
inductive PublicFormat where
  | subjectPublicKeyInfo
  | pkcs1
  deriving DecidableEq, Repr

/-- Private serialization formats. -/
inductive PrivateFormat where
  | traditionalOpenSSL
  | openSSH
  | pkcs8
  deriving DecidableEq, Repr

/-- Key serialization encryption choices. -/
inductive KeySerializationEncryption where
  | noEncryption
  | bestAvailableEncryption (password : List Nat)
  deriving DecidableEq, Repr

/-- `KeyVaultRSAPublicKey.public_bytes`: raises `ValueError` without key
material; otherwise defers to the `cryptography` library serialization,
abstracted as the function argument `serialize`. -/
def KeyVaultRSAPublicKey.public_bytes
    (serialize : Encoding → PublicFormat → RSAPublicNumbers → List Nat)
    (self : KeyVaultRSAPublicKey) (encoding : Encoding) (format : PublicFormat) :
    Except PyErr (List Nat) :=
  match self.key_material with
  | none => .error .valueError
  | some _ => do
    let pn ← self.public_numbers
    return serialize encoding format pn

/-- `KeyVaultRSAPublicKey.verify`: rejects `Prehashed`, maps the padding and
hash to a Key Vault algorithm, hashes the data (the `cryptography` digest is
abstracted as `hashDigest`), delegates to the client, and raises
`InvalidSignature` when the result is not valid. -/
def KeyVaultRSAPublicKey.verify (hashDigest : HashAlg → List Nat → List Nat)
    (self : KeyVaultRSAPublicKey) (signature data : List Nat)
    (padding : AsymmetricPadding) (algorithm : SignAlgArg) :
    Except PyErr Unit :=
  match algorithm with
  | .prehashed => .error .valueError
  | .hash alg => do
    let mapped_algorithm ← get_signature_algorithm padding alg
    let digest := hashDigest alg data
    let result := self.client.verify mapped_algorithm digest signature
    if result.is_valid then return () else .error .invalidSignature

/-- `KeyVaultRSAPublicKey.recover_data_from_signature`: raises `ValueError`
without key material; otherwise defers to the `cryptography` implementation
(abstracted as `recover`), translating its `AttributeError` (method absent
before version 3.3) into `NotImplementedError`. -/
def KeyVaultRSAPublicKey.recover_data_from_signature
    (recover : RSAPublicNumbers → List Nat → AsymmetricPadding →
      Option HashAlg → Except PyErr (List Nat))
    (self : KeyVaultRSAPublicKey) (signature : List Nat)
    (padding : AsymmetricPadding) (algorithm : Option HashAlg) :
    Except PyErr (List Nat) :=
  match self.key_material with
  | none => .error .valueError
  | some _ =>
    match self.public_numbers with
    | .error e => .error e
    | .ok pn =>
      match recover pn signature padding algorithm with
      | .error .attributeError => .error .notImplementedError
      | r => r

/-- The `other` argument of `KeyVaultRSAPublicKey.__eq__`: another
`KeyVaultRSAPublicKey` (carrying its own optional key material), a
`JsonWebKey`, or an object of any other type. -/
inductive EqArg where
  | rsaPublicKey (key_material : Option JsonWebKey)
  | jwk (k : JsonWebKey)
  | otherObject

/-- `KeyVaultRSAPublicKey.__eq__`: `False` when this key has no key material;
otherwise a field-by-field `JsonWebKey` comparison for `KeyVaultRSAPublicKey`
and `JsonWebKey` arguments (reading a field from a `None` key raises
`AttributeError`), and `False` for any other type. -/
def KeyVaultRSAPublicKey.eq (self : KeyVaultRSAPublicKey) (other : EqArg) :
    Except PyErr Bool :=
  match self.key_material with
  | none => .ok false
  | some k =>
    match other with
    | .rsaPublicKey (some k2) => .ok (jwkFieldsEqual k k2)
    | .rsaPublicKey none => .error .attributeError
    | .jwk k2 => .ok (jwkFieldsEqual k k2)
    | .otherObject => .ok false

/-- `KeyVaultRSAPrivateKey`: a remote client plus optional local key
material. -/
structure KeyVaultRSAPrivateKey where
  client : CryptographyClient
  key_material : Option JsonWebKey

/-- `KeyVaultRSAPrivateKey.decrypt`: maps the padding to a Key Vault
algorithm, delegates to the client, and returns the result plaintext. -/
def KeyVaultRSAPrivateKey.decrypt (self : KeyVaultRSAPrivateKey)
    (ciphertext : List Nat) (padding : AsymmetricPadding) :
    Except PyErr (List Nat) := do
  let mapped_algorithm ← get_encryption_algorithm padding
  let result := self.client.decrypt mapped_algorithm ciphertext
  return result.plaintext

/-- `KeyVaultRSAPrivateKey.public_key`: a public key sharing this key's
client and key material. -/
def KeyVaultRSAPrivateKey.public_key (self : KeyVaultRSAPrivateKey) :
    KeyVaultRSAPublicKey :=
  { client := self.client, key_material := self.key_material }

/-- `KeyVaultRSAPrivateKey.key_size`: raises `ValueError` without key
material; otherwise the key size of the associated public key. -/
def KeyVaultRSAPrivateKey.key_size (self : KeyVaultRSAPrivateKey) :
    Except PyErr Nat :=
  match self.key_material with
  | none => .error .valueError
  | some _ => self.public_key.key_size

/-- `KeyVaultRSAPrivateKey.sign`: rejects `Prehashed`, maps the padding and
hash to a Key Vault algorithm, hashes the data, delegates to the client, and
returns the result signature. -/
def KeyVaultRSAPrivateKey.sign (hashDigest : HashAlg → List Nat → List Nat)
    (self : KeyVaultRSAPrivateKey) (data : List Nat)
    (padding : AsymmetricPadding) (algorithm : SignAlgArg) :
    Except PyErr (List Nat) :=
  match algorithm with
  | .prehashed => .error .valueError
  | .hash alg => do
    let mapped_algorithm ← get_signature_algorithm padding alg
    let digest := hashDigest alg data
    let result := self.client.sign mapped_algorithm digest
    return result.signature

/-- `RSAPrivateNumbers` from `cryptography`. -/
structure RSAPrivateNumbers where
  p : Nat
  q : Nat
  d : Nat
  dmp1 : Nat
  dmq1 : Nat
  iqmp : Nat
  public_numbers : RSAPublicNumbers
  deriving DecidableEq, Repr

/-- The `cryptography` RSA helper functions used by `private_numbers`,
abstracted: `rsa_recover_prime_factors`, `rsa_crt_dmp1`, `rsa_crt_dmq1`,
`rsa_crt_iqmp`. -/
structure RSAMath where
  recover_prime_factors : Nat → Nat → Nat → Nat × Nat
  crt_dmp1 : Nat → Nat → Nat
  crt_dmq1 : Nat → Nat → Nat
  crt_iqmp : Nat → Nat → Nat

/-- `int.from_bytes(b, "big") if b else None`: Python truthiness makes both
`None` and empty bytes yield `None`. -/
def optional_int_from_bytes : Option (List Nat) → Option Nat
  | none => none
  | some [] => none
  | some bs => some (bs.foldl (fun acc b => acc * 256 + b) 0)

/-- `KeyVaultRSAPrivateKey.private_numbers`: raises `ValueError` without key
material; reads public and private integers from the JWK; raises `ValueError`
when `d` is missing; recovers `p`/`q` and the CRT values with the
`cryptography` helpers when absent. -/
def KeyVaultRSAPrivateKey.private_numbers (rsa : RSAMath)
    (self : KeyVaultRSAPrivateKey) : Except PyErr RSAPrivateNumbers :=
  match self.key_material with
  | none => .error .valueError
  | some jwk => do
    let e ← int_from_bytes jwk.e
    let n ← int_from_bytes jwk.n
    let pub : RSAPublicNumbers := { e := e, n := n }
    match optional_int_from_bytes jwk.d with
    | none => .error .valueError
    | some d =>
      let pq :=
        match optional_int_from_bytes jwk.p, optional_int_from_bytes jwk.q with
        | some p, some q => (p, q)
        | _, _ => rsa.recover_prime_factors n e d
      let dmp1 := (optional_int_from_bytes jwk.dp).getD (rsa.crt_dmp1 d pq.1)
      let dmq1 := (optional_int_from_bytes jwk.dq).getD (rsa.crt_dmq1 d pq.2)
      let iqmp := (optional_int_from_bytes jwk.qi).getD (rsa.crt_iqmp pq.1 pq.2)
      return { p := pq.1, q := pq.2, d := d, dmp1 := dmp1, dmq1 := dmq1,
               iqmp := iqmp, public_numbers := pub }

/-- `KeyVaultRSAPrivateKey.private_bytes`: raises `ValueError` without key
material; re-raises the `ValueError` of `private_numbers`; otherwise defers
to the `cryptography` serialization (abstracted as `serialize`). -/
def KeyVaultRSAPrivateKey.private_bytes (rsa : RSAMath)
    (serialize : Encoding → PrivateFormat → KeySerializationEncryption →
      RSAPrivateNumbers → List Nat)
    (self : KeyVaultRSAPrivateKey) (encoding : Encoding)
    (format : PrivateFormat)
    (encryption_algorithm : KeySerializationEncryption) :
    Except PyErr (List Nat) :=
  match self.key_material with
  | none => .error .valueError
  | some _ =>
    match self.private_numbers rsa with
    | .error e => .error e
    | .ok pn => .ok (serialize encoding format encryption_algorithm pn)

/-- An `azure.core.rest.HttpRequest`: method, url, headers and content. -/
structure HttpRequest where
  method : String
  url : String
  headers : List (String × String)
  content : List Nat
  deriving DecidableEq, Repr, Inhabited

/-- An HTTP response, reduced to the fields the modelled code produces. -/
structure HttpResponse where
  status : Nat
  reason : String
  body : String
  headers : List (String × String)
  deriving DecidableEq, Repr

/-- The `ARMPipelineClient` held by `HybridComputeManagementClient`,
abstracted as its `format_url` (URL formatting against the client base URL)
and `send_request` operations. -/
structure ARMPipelineClient where
  format_url : String → String
  send_request : HttpRequest → Bool → HttpResponse

/-- A heap of mutable `HttpRequest` objects; references are list indices.
`deepcopy` allocates a fresh object at the end of the heap. -/
abbrev RequestHeap := List HttpRequest

/-- `copy.deepcopy` on a request reference: a fresh, independent object. -/
def RequestHeap.deepcopy (heap : RequestHeap) (ref : Nat) : RequestHeap × Nat :=
  (heap ++ [heap.getD ref default], heap.length)

/-- In-place assignment `request.url = u` on the object behind `ref`. -/
def RequestHeap.setUrl (heap : RequestHeap) (ref : Nat) (u : String) :
    RequestHeap :=
  heap.set ref { heap.getD ref default with url := u }

/-- `HybridComputeManagementClient._send_request`: deep-copies the request,
formats the copy's URL against the client base URL, and sends the copy
through the pipeline.  Returns the final heap and the pipeline response. -/
def HybridComputeManagementClient.send_request (client : ARMPipelineClient)
    (heap : RequestHeap) (request : Nat) (stream : Bool) :
    RequestHeap × HttpResponse :=
  let copied := RequestHeap.deepcopy heap request
  let heap1 := copied.1
  let request_copy := copied.2
  let heap2 := RequestHeap.setUrl heap1 request_copy
    (client.format_url (List.getD heap1 request_copy default).url)
  (heap2, client.send_request (List.getD heap2 request_copy default) stream)

/-- Header-key membership test (`key in request.headers`). -/
def hasHeader (headers : List (String × String)) (key : String) : Bool :=
  headers.any (fun kv => kv.1 == key)

/-- `MockStorageTransport.send` from the file-share test helpers: a GET
returns 200 with body `Hello Async World!` (adding a Content-MD5 header when
the request carries `x-ms-range-get-content-md5`); HEAD returns 200 empty;
PUT returns 201 Created; DELETE returns 202 Accepted; anything else raises
`ValueError`. -/
def MockStorageTransport.send (request : HttpRequest) :
    Except PyErr HttpResponse :=
  if request.method = "GET" then
    let headers := [("Content-Type", "application/octet-stream"),
                    ("Content-Range", "bytes 0-17/18"),
                    ("Content-Length", "18")]
    let headers :=
      if hasHeader request.headers "x-ms-range-get-content-md5" then
        headers ++ [("Content-MD5", "I3pVbaOCUTom+G9F9uKFoA==")]
      else headers
    .ok { status := 200, reason := "OK", body := "Hello Async World!",
          headers := headers }
  else if request.method = "HEAD" then
    .ok { status := 200, reason := "OK", body := "",
          headers := [("Content-Type", "application/octet-stream"),
                      ("Content-Length", "1024")] }
  else if request.method = "PUT" then
    .ok { status := 201, reason := "Created", body := "",
          headers := [("Content-Length", "0")] }
  else if request.method = "DELETE" then
    .ok { status := 202, reason := "Accepted", body := "",
          headers := [("Content-Length", "0")] }
  else
    .error .valueError

/-- A JSON value, as found in a Cosmos document body. -/
inductive JsonVal where
  | str (s : String)
  | num (n : Int)
  | boolean (b : Bool)
  | null
  | obj (fields : List (String × JsonVal))

/-- Field lookup in a JSON object. -/
def lookupField : List (String × JsonVal) → String → Option JsonVal
  | [], _ => none
  | (k, v) :: rest, key => if k = key then some v else lookupField rest key

/-- Resolution of a partition-key path (a list of path parts) against a
document body: each part must index a JSON object. -/
def resolvePath : JsonVal → List String → Option JsonVal
  | v, [] => some v
  | .obj fields, part :: rest =>
    match lookupField fields part with
    | some v => resolvePath v rest
    | none => none
  | _, _ :: _ => none

/-- JSON serialization of a leaf partition-key value. -/
def renderJsonLeaf : JsonVal → String
  | .str s => "\x22" ++ s ++ "\x22"
  | .num n => toString n
  | .boolean true => "true"
  | .boolean false => "false"
  | _ => "null"

/-- The value of the `x-ms-documentdb-partitionkey` routing header: either the
serialized JSON array text of the extracted value, or the unserialized
undefined marker `[` `\x7b\x7d` `]` observed by the Cosmos test when the path
does not resolve to a leaf. -/
inductive PartitionKeyHeader where
  | jsonText (s : String)
  | undefinedMarker
  deriving DecidableEq, Repr

/-- Modelled from the spec: the Cosmos client partition-key extraction (the
`azure-cosmos` client internals are not among the sampled sources; only the
CRUD test exercising them is).  Per the spec, the client extracts the value
at the container's partition-key path from the document body and sends it as
the routing header; a path that is absent or resolves to a non-leaf value
yields the undefined marker. -/
def extractPartitionKeyHeader (doc : JsonVal) (paths : List String) :
    PartitionKeyHeader :=
  match resolvePath doc paths with
  | some (.obj _) => .undefinedMarker
  | none => .undefinedMarker
  | some leaf => .jsonText ("[" ++ renderJsonLeaf leaf ++ "]")

/-- The document body used by the partition-key extraction test. -/
def cosmosTestDocument : JsonVal :=
  .obj [("id", .str "document1"),
        ("address", .obj [("street", .str "1 Microsoft Way"),
                          ("city", .str "Redmond"),
                          ("state", .str "WA"),
                          ("zip code", .num 98052)])]

/-- `StatusCodes.PRECONDITION_FAILED` from the Cosmos http constants. -/
def PRECONDITION_FAILED : Nat := 412

/-- The `match_condition` keyword argument: absent, a `MatchConditions`
member, or a value of some other type. -/
inductive MatchConditionArg where
  | unspecified
  | ifNotModified
  | ifModified
  | invalidType
  deriving DecidableEq, Repr

/-- Modelled from the spec: the keyword validation that `replace_item`
performs on `etag`/`match_condition` (implemented in the `azure-cosmos` /
`azure-core` client layers, which are not among the sampled sources; only the
CRUD test exercising them is).  A non-`MatchConditions` value raises
`TypeError`; an `etag` without a `match_condition` raises `ValueError`; an
`IfNotModified`/`IfModified` condition without an `etag` raises
`ValueError`. -/
def validateMatchConditionKwargs (etag : Option String)
    (match_condition : MatchConditionArg) : Except PyErr Unit :=
  match match_condition with
  | .invalidType => .error .typeError
  | .unspecified =>
    match etag with
    | some _ => .error .valueError
    | none => .ok ()
  | .ifNotModified | .ifModified =>
    match etag with
    | none => .error .valueError
    | some _ => .ok ()

/-- Modelled from the spec: the server-side optimistic-concurrency check for
`replace_item` (the Cosmos engine is server-side; this repo has only the thin
client).  A request conditioned with `if_match` succeeds only when the
supplied etag equals the item's current etag; otherwise it fails with HTTP
status 412 `PRECONDITION_FAILED`.  On success the item body is replaced and a
fresh etag is assigned. -/
def replaceItemWithIfMatch (currentEtag newEtag : String)
    (if_match : Option String) (newBody : JsonVal) :
    Except PyErr (JsonVal × String) :=
  match if_match with
  | some e =>
    if e = currentEtag then .ok (newBody, newEtag)
    else .error (.httpError PRECONDITION_FAILED)
  | none => .ok (newBody, newEtag)

/-- A concrete remote client used to instantiate the adapter theorems. -/
def demoClient : CryptographyClient where
  encrypt := fun a pt => { key_id := none, algorithm := a, ciphertext := 0 :: pt }
  decrypt := fun a ct => { key_id := none, algorithm := a, plaintext := ct }
  sign := fun a d => { key_id := none, algorithm := a, signature := d }
  verify := fun a d s => { key_id := none, is_valid := d == s, algorithm := a }

/-- A concrete hash function used to instantiate the adapter theorems. -/
def demoDigest : HashAlg → List Nat → List Nat := fun _ d => d

/-- A concrete pipeline client used to instantiate the hybridcompute
theorem. -/
def demoArmClient : ARMPipelineClient where
  format_url := fun u => "https://management.azure.com" ++ u
  send_request := fun r _ =>
    { status := 200, reason := "OK", body := r.url, headers := [] }

/-- A concrete request used to instantiate the transport theorems. -/
def demoRequest : HttpRequest where
  method := "GET"
  url := "/subscriptions/s1/resourceGroups/rg"
  headers := []
  content := []

/-- A concrete GET request carrying the range-MD5 header. -/
def demoMd5Request : HttpRequest where
  method := "GET"
  url := "/share/file"
  headers := [("x-ms-range-get-content-md5", "true")]
  content := []

/-- A concrete request with an unsupported method. -/
def demoPatchRequest : HttpRequest where
  method := "PATCH"
  url := "/share/file"
  headers := []
  content := []

end AzureSDK

namespace AzureSDK

/-- Supporting fact: `get_signature_algorithm` never succeeds with `none`; the
`PSS_MAP` lookup is always applied to an image element of
`SIGN_ALGORITHM_MAP`, on which it is defined. -/
theorem get_signature_algorithm_ne_ok_none (padding : AsymmetricPadding)
    (algorithm : HashAlg) : get_signature_algorithm padding algorithm ≠ .ok none := by
  cases algorithm <;> cases padding <;>
    try simp [get_signature_algorithm, SIGN_ALGORITHM_MAP, PSS_MAP]
  all_goals
    rename_i mgf
  all_goals
    cases mgf <;> simp [get_signature_algorithm, SIGN_ALGORITHM_MAP, PSS_MAP]

/-- C1: `get_encryption_algorithm` returns `rsa_oaep` for OAEP with SHA1 and
MGF1, `rsa_oaep_256` for OAEP with SHA256 and MGF1, and `rsa1_5` for
PKCS1v15; it raises `ValueError` for OAEP with any other hash algorithm, for
OAEP with a non-MGF1 mask generation function, and for any padding other
than OAEP or PKCS1v15. -/
theorem get_encryption_algorithm_spec :
    (∀ mh, get_encryption_algorithm (.oaep (.mgf1 mh) .sha1) = .ok .rsa_oaep) ∧
    (∀ mh, get_encryption_algorithm (.oaep (.mgf1 mh) .sha256) =
      .ok .rsa_oaep_256) ∧
    (get_encryption_algorithm .pkcs1v15 = .ok .rsa1_5) ∧
    (∀ mgf, get_encryption_algorithm (.oaep mgf .sha384) =
      .error .valueError) ∧
    (∀ mgf, get_encryption_algorithm (.oaep mgf .sha512) =
      .error .valueError) ∧
    (∀ mgf nm, get_encryption_algorithm (.oaep mgf (.otherHash nm)) =
      .error .valueError) ∧
    (get_encryption_algorithm (.oaep .otherMgf .sha1) = .error .valueError) ∧
    (get_encryption_algorithm (.oaep .otherMgf .sha256) =
      .error .valueError) ∧
    (∀ mgf, get_encryption_algorithm (.pss mgf) = .error .valueError) ∧
    (∀ nm, get_encryption_algorithm (.otherPadding nm) = .error .valueError) :=
  ⟨fun _ => rfl, fun _ => rfl, rfl, fun _ => rfl, fun _ => rfl,
   fun _ _ => rfl, rfl, rfl, fun _ => rfl, fun _ => rfl⟩

/-- C2: `get_signature_algorithm` maps SHA256/SHA384/SHA512 to
`rs256`/`rs384`/`rs512` under PKCS1v15 padding and to `ps256`/`ps384`/`ps512`
under PSS padding with MGF1; it raises `ValueError` for any other hash
algorithm (under every padding), for PSS with a non-MGF1 mask generation
function, and for any padding other than PSS or PKCS1v15. -/
theorem get_signature_algorithm_spec :
    (get_signature_algorithm .pkcs1v15 .sha256 = .ok (some .rs256)) ∧
    (get_signature_algorithm .pkcs1v15 .sha384 = .ok (some .rs384)) ∧
    (get_signature_algorithm .pkcs1v15 .sha512 = .ok (some .rs512)) ∧
    (∀ mh, get_signature_algorithm (.pss (.mgf1 mh)) .sha256 =
      .ok (some .ps256)) ∧
    (∀ mh, get_signature_algorithm (.pss (.mgf1 mh)) .sha384 =
      .ok (some .ps384)) ∧
    (∀ mh, get_signature_algorithm (.pss (.mgf1 mh)) .sha512 =
      .ok (some .ps512)) ∧
    (∀ p, get_signature_algorithm p .sha1 = .error .valueError) ∧
    (∀ p nm, get_signature_algorithm p (.otherHash nm) =
      .error .valueError) ∧
    (get_signature_algorithm (.pss .otherMgf) .sha256 = .error .valueError) ∧
    (get_signature_algorithm (.pss .otherMgf) .sha384 = .error .valueError) ∧
    (get_signature_algorithm (.pss .otherMgf) .sha512 = .error .valueError) ∧
    (∀ mgf oh, get_signature_algorithm (.oaep mgf oh) .sha256 =
      .error .valueError) ∧
    (∀ mgf oh, get_signature_algorithm (.oaep mgf oh) .sha384 =
      .error .valueError) ∧
    (∀ mgf oh, get_signature_algorithm (.oaep mgf oh) .sha512 =
      .error .valueError) ∧
    (∀ nm, get_signature_algorithm (.otherPadding nm) .sha256 =
      .error .valueError) ∧
    (∀ nm, get_signature_algorithm (.otherPadding nm) .sha384 =
      .error .valueError) ∧
    (∀ nm, get_signature_algorithm (.otherPadding nm) .sha512 =
      .error .valueError) :=
  ⟨rfl, rfl, rfl, fun _ => rfl, fun _ => rfl, fun _ => rfl, fun _ => rfl,
   fun _ _ => rfl, rfl, rfl, rfl, fun _ _ => rfl, fun _ _ => rfl,
   fun _ _ => rfl, fun _ => rfl, fun _ => rfl, fun _ => rfl⟩

/-- C9: with `key_material` absent, every operation that needs local key
material (`key_size`, `public_numbers`, `public_bytes`,
`recover_data_from_signature` on the public key; `key_size`,
`private_numbers`, `private_bytes` on the private key) raises `ValueError`,
while the purely remote operations (`encrypt`, `verify`, `decrypt`, `sign`)
do not depend on the key material and still delegate to the client. -/
theorem keyvault_missing_key_material_spec :
    (∀ c : CryptographyClient,
      KeyVaultRSAPublicKey.key_size ⟨c, none⟩ = .error .valueError) ∧
    (∀ c : CryptographyClient,
      KeyVaultRSAPublicKey.public_numbers ⟨c, none⟩ = .error .valueError) ∧
    (∀ (ser : Encoding → PublicFormat → RSAPublicNumbers → List Nat)
        (c : CryptographyClient) (enc : Encoding) (fmt : PublicFormat),
      KeyVaultRSAPublicKey.public_bytes ser ⟨c, none⟩ enc fmt =
        .error .valueError) ∧
    (∀ (recover : RSAPublicNumbers → List Nat → AsymmetricPadding →
          Option HashAlg → Except PyErr (List Nat))
        (c : CryptographyClient) (sig : List Nat)
        (padding : AsymmetricPadding) (alg : Option HashAlg),
      KeyVaultRSAPublicKey.recover_data_from_signature recover ⟨c, none⟩ sig
        padding alg = .error .valueError) ∧
    (∀ c : CryptographyClient,
      KeyVaultRSAPrivateKey.key_size ⟨c, none⟩ = .error .valueError) ∧
    (∀ (rsa : RSAMath) (c : CryptographyClient),
      KeyVaultRSAPrivateKey.private_numbers rsa ⟨c, none⟩ =
        .error .valueError) ∧
    (∀ (rsa : RSAMath)
        (ser : Encoding → PrivateFormat → KeySerializationEncryption →
          RSAPrivateNumbers → List Nat)
        (c : CryptographyClient) (enc : Encoding) (fmt : PrivateFormat)
        (ka : KeySerializationEncryption),
      KeyVaultRSAPrivateKey.private_bytes rsa ser ⟨c, none⟩ enc fmt ka =
        .error .valueError) ∧
    (∀ (c : CryptographyClient) (k1 k2 : Option JsonWebKey) (pt : List Nat)
        (padding : AsymmetricPadding),
      KeyVaultRSAPublicKey.encrypt ⟨c, k1⟩ pt padding =
        KeyVaultRSAPublicKey.encrypt ⟨c, k2⟩ pt padding) ∧
    (∀ (hd : HashAlg → List Nat → List Nat) (c : CryptographyClient)
        (k1 k2 : Option JsonWebKey) (sig data : List Nat)
        (padding : AsymmetricPadding) (alg : SignAlgArg),
      KeyVaultRSAPublicKey.verify hd ⟨c, k1⟩ sig data padding alg =
        KeyVaultRSAPublicKey.verify hd ⟨c, k2⟩ sig data padding alg) ∧
    (∀ (c : CryptographyClient) (k1 k2 : Option JsonWebKey) (ct : List Nat)
        (padding : AsymmetricPadding),
      KeyVaultRSAPrivateKey.decrypt ⟨c, k1⟩ ct padding =
        KeyVaultRSAPrivateKey.decrypt ⟨c, k2⟩ ct padding) ∧
    (∀ (hd : HashAlg → List Nat → List Nat) (c : CryptographyClient)
        (k1 k2 : Option JsonWebKey) (data : List Nat)
        (padding : AsymmetricPadding) (alg : SignAlgArg),
      KeyVaultRSAPrivateKey.sign hd ⟨c, k1⟩ data padding alg =
        KeyVaultRSAPrivateKey.sign hd ⟨c, k2⟩ data padding alg) ∧
    (∀ (c : CryptographyClient) (pt : List Nat),
      KeyVaultRSAPublicKey.encrypt ⟨c, none⟩ pt .pkcs1v15 =
        .ok ((c.encrypt .rsa1_5 pt).ciphertext)) ∧
    (∀ (c : CryptographyClient) (ct : List Nat),
      KeyVaultRSAPrivateKey.decrypt ⟨c, none⟩ ct .pkcs1v15 =
        .ok ((c.decrypt .rsa1_5 ct).plaintext)) ∧
    (∀ (hd : HashAlg → List Nat → List Nat) (c : CryptographyClient)
        (data : List Nat),
      KeyVaultRSAPrivateKey.sign hd ⟨c, none⟩ data .pkcs1v15
          (.hash .sha256) =
        .ok ((c.sign (some .rs256) (hd .sha256 data)).signature)) ∧
    (∀ (hd : HashAlg → List Nat → List Nat) (c : CryptographyClient)
        (sig data : List Nat),
      KeyVaultRSAPublicKey.verify hd ⟨c, none⟩ sig data .pkcs1v15
          (.hash .sha256) =
        if (c.verify (some .rs256) (hd .sha256 data) sig).is_valid then
          .ok () else .error .invalidSignature) := by
  refine ⟨fun _ => rfl, fun _ => rfl, fun _ _ _ _ => rfl,
    fun _ _ _ _ _ => rfl, fun _ => rfl, fun _ _ => rfl,
    fun _ _ _ _ _ _ => rfl, fun _ _ _ _ _ => rfl, ?_,
    fun _ _ _ _ _ => rfl, ?_, fun _ _ => rfl, fun _ _ => rfl,
    fun _ _ _ => rfl, fun _ _ _ _ => rfl⟩
  · intro hd c k1 k2 sig data padding alg
    cases alg <;> rfl
  · intro hd c k1 k2 data padding alg
    cases alg <;> rfl

/-- C10: `KeyVaultRSAPublicKey.__eq__` returns `False` for every argument
when this key has no key material (so equality is not reflexive there); with
key material present it returns the field-by-field `JsonWebKey` comparison
against another `KeyVaultRSAPublicKey` with key material or a `JsonWebKey`,
raises `AttributeError` against a `KeyVaultRSAPublicKey` without key
material, and returns `False` for an object of any other type; the
field-by-field comparison holds exactly when all `JsonWebKey` fields are
equal. -/
theorem keyvault_public_key_eq_spec :
    (∀ (c : CryptographyClient) (other : EqArg),
      KeyVaultRSAPublicKey.eq ⟨c, none⟩ other = .ok false) ∧
    (∀ (c : CryptographyClient) (k k2 : JsonWebKey),
      KeyVaultRSAPublicKey.eq ⟨c, some k⟩ (.rsaPublicKey (some k2)) =
        .ok (jwkFieldsEqual k k2)) ∧
    (∀ (c : CryptographyClient) (k : JsonWebKey),
      KeyVaultRSAPublicKey.eq ⟨c, some k⟩ (.rsaPublicKey none) =
        .error .attributeError) ∧
    (∀ (c : CryptographyClient) (k k2 : JsonWebKey),
      KeyVaultRSAPublicKey.eq ⟨c, some k⟩ (.jwk k2) =
        .ok (jwkFieldsEqual k k2)) ∧
    (∀ (c : CryptographyClient) (k : JsonWebKey),
      KeyVaultRSAPublicKey.eq ⟨c, some k⟩ .otherObject = .ok false) ∧
    (∀ k k2 : JsonWebKey, jwkFieldsEqual k k2 = true ↔ k = k2) := by
  refine ⟨fun _ _ => rfl, fun _ _ _ => rfl, fun _ _ => rfl,
    fun _ _ _ => rfl, fun _ _ => rfl, ?_⟩
  intro k k2
  constructor
  · intro h
    cases k; cases k2
    simp only [jwkFieldsEqual, Bool.and_eq_true, beq_iff_eq] at h
    simp only [JsonWebKey.mk.injEq]
    tauto
  · intro h
    subst h
    cases k
    simp [jwkFieldsEqual]

/-- C3: each cryptographic operation of the adapters delegates to the remote
client: `encrypt` returns the `ciphertext` of the client encrypt result for
the algorithm produced by `get_encryption_algorithm`; `decrypt` returns the
`plaintext` of the client decrypt result; `sign` returns the `signature` of
the client sign result applied to the hash digest of the data. -/
theorem keyvault_remote_delegation_spec :
    (∀ (c : CryptographyClient) (key : Option JsonWebKey) (pt : List Nat)
        (padding : AsymmetricPadding) (alg : EncryptionAlgorithm),
      get_encryption_algorithm padding = .ok alg →
      KeyVaultRSAPublicKey.encrypt ⟨c, key⟩ pt padding =
        .ok ((c.encrypt alg pt).ciphertext)) ∧
    (∀ (c : CryptographyClient) (key : Option JsonWebKey) (ct : List Nat)
        (padding : AsymmetricPadding) (alg : EncryptionAlgorithm),
      get_encryption_algorithm padding = .ok alg →
      KeyVaultRSAPrivateKey.decrypt ⟨c, key⟩ ct padding =
        .ok ((c.decrypt alg ct).plaintext)) ∧
    (∀ (hd : HashAlg → List Nat → List Nat) (c : CryptographyClient)
        (key : Option JsonWebKey) (data : List Nat)
        (padding : AsymmetricPadding) (halg : HashAlg)
        (m : Option SignatureAlgorithm),
      get_signature_algorithm padding halg = .ok m →
      KeyVaultRSAPrivateKey.sign hd ⟨c, key⟩ data padding (.hash halg) =
        .ok ((c.sign m (hd halg data)).signature)) := by
  refine ⟨?_, ?_, ?_⟩
  · intro c key pt padding alg h
    simp only [KeyVaultRSAPublicKey.encrypt]
    rw [h]
    rfl
  · intro c key ct padding alg h
    simp only [KeyVaultRSAPrivateKey.decrypt]
    rw [h]
    rfl
  · intro hd c key data padding halg m h
    simp only [KeyVaultRSAPrivateKey.sign]
    rw [h]
    rfl

/-- Witness for C3 at a concrete client, key material, and padding. -/
theorem keyvault_remote_delegation_spec_witness :
    KeyVaultRSAPublicKey.encrypt ⟨demoClient, none⟩ [1, 2] .pkcs1v15 =
      .ok ((demoClient.encrypt .rsa1_5 [1, 2]).ciphertext) ∧
    KeyVaultRSAPrivateKey.decrypt ⟨demoClient, none⟩ [3] .pkcs1v15 =
      .ok ((demoClient.decrypt .rsa1_5 [3]).plaintext) ∧
    KeyVaultRSAPrivateKey.sign demoDigest ⟨demoClient, none⟩ [4] .pkcs1v15
        (.hash .sha256) =
      .ok ((demoClient.sign (some .rs256) (demoDigest .sha256 [4])).signature) :=
  ⟨keyvault_remote_delegation_spec.1 demoClient none [1, 2] .pkcs1v15
      .rsa1_5 rfl,
   keyvault_remote_delegation_spec.2.1 demoClient none [3] .pkcs1v15
      .rsa1_5 rfl,
   keyvault_remote_delegation_spec.2.2 demoDigest demoClient none [4]
      .pkcs1v15 .sha256 (some .rs256) rfl⟩

/-- C4: `KeyVaultRSAPublicKey.verify` returns `None` exactly when the remote
verify result reports `is_valid` true and raises `InvalidSignature` exactly
when it reports false; a `Prehashed` algorithm argument raises `ValueError`
for every client, so the client is never consulted. -/
theorem keyvault_verify_spec :
    (∀ (hd : HashAlg → List Nat → List Nat) (c : CryptographyClient)
        (key : Option JsonWebKey) (sig data : List Nat)
        (padding : AsymmetricPadding) (halg : HashAlg)
        (m : Option SignatureAlgorithm),
      get_signature_algorithm padding halg = .ok m →
      (c.verify m (hd halg data) sig).is_valid = true →
      KeyVaultRSAPublicKey.verify hd ⟨c, key⟩ sig data padding
        (.hash halg) = .ok ()) ∧
    (∀ (hd : HashAlg → List Nat → List Nat) (c : CryptographyClient)
        (key : Option JsonWebKey) (sig data : List Nat)
        (padding : AsymmetricPadding) (halg : HashAlg)
        (m : Option SignatureAlgorithm),
      get_signature_algorithm padding halg = .ok m →
      (c.verify m (hd halg data) sig).is_valid = false →
      KeyVaultRSAPublicKey.verify hd ⟨c, key⟩ sig data padding
        (.hash halg) = .error .invalidSignature) ∧
    (∀ (hd : HashAlg → List Nat → List Nat) (c : CryptographyClient)
        (key : Option JsonWebKey) (sig data : List Nat)
        (padding : AsymmetricPadding),
      KeyVaultRSAPublicKey.verify hd ⟨c, key⟩ sig data padding .prehashed =
        .error .valueError) := by
  refine ⟨?_, ?_, fun _ _ _ _ _ _ => rfl⟩
  · intro hd c key sig data padding halg m h hv
    have hred : KeyVaultRSAPublicKey.verify hd ⟨c, key⟩ sig data padding
        (.hash halg) =
        if (c.verify m (hd halg data) sig).is_valid then Except.ok ()
        else Except.error .invalidSignature := by
      simp only [KeyVaultRSAPublicKey.verify]
      rw [h]
      rfl
    rw [hred, hv]
    rfl
  · intro hd c key sig data padding halg m h hv
    have hred : KeyVaultRSAPublicKey.verify hd ⟨c, key⟩ sig data padding
        (.hash halg) =
        if (c.verify m (hd halg data) sig).is_valid then Except.ok ()
        else Except.error .invalidSignature := by
      simp only [KeyVaultRSAPublicKey.verify]
      rw [h]
      rfl
    rw [hred, hv]
    rfl

/-- Witness for C4 at a concrete client: a matching digest verifies, a
mismatched one raises `InvalidSignature`, and `Prehashed` raises
`ValueError`. -/
theorem keyvault_verify_spec_witness :
    KeyVaultRSAPublicKey.verify demoDigest ⟨demoClient, none⟩ [1, 2] [1, 2]
      .pkcs1v15 (.hash .sha256) = .ok () ∧
    KeyVaultRSAPublicKey.verify demoDigest ⟨demoClient, none⟩ [9] [1, 2]
      .pkcs1v15 (.hash .sha256) = .error .invalidSignature ∧
    KeyVaultRSAPublicKey.verify demoDigest ⟨demoClient, none⟩ [9] [1, 2]
      .pkcs1v15 .prehashed = .error .valueError :=
  ⟨keyvault_verify_spec.1 demoDigest demoClient none [1, 2] [1, 2]
      .pkcs1v15 .sha256 (some .rs256) rfl rfl,
   keyvault_verify_spec.2.1 demoDigest demoClient none [9] [1, 2]
      .pkcs1v15 .sha256 (some .rs256) rfl rfl,
   keyvault_verify_spec.2.2 demoDigest demoClient none [9] [1, 2]
      .pkcs1v15⟩

/-- C5: the extracted routing-header value for a container partitioned on
`/address/state` is the JSON text for the document's `address.state` leaf
(so a document with that field equal to `WA` routes as the JSON array
holding `WA`), while a path that resolves to a non-leaf object value or is
absent yields the undefined marker; instantiated on the document of the
Cosmos partition-key extraction test. -/
theorem cosmos_partition_key_extraction_spec :
    (∀ doc : JsonVal,
      resolvePath doc ["address", "state"] = some (.str "WA") →
      extractPartitionKeyHeader doc ["address", "state"] =
        .jsonText "[\"WA\"]") ∧
    (∀ (doc : JsonVal) (path : List String)
        (fields : List (String × JsonVal)),
      resolvePath doc path = some (.obj fields) →
      extractPartitionKeyHeader doc path = .undefinedMarker) ∧
    (∀ (doc : JsonVal) (path : List String),
      resolvePath doc path = none →
      extractPartitionKeyHeader doc path = .undefinedMarker) ∧
    (extractPartitionKeyHeader cosmosTestDocument ["address", "state"] =
      .jsonText "[\"WA\"]") ∧
    (extractPartitionKeyHeader cosmosTestDocument ["address"] =
      .undefinedMarker) ∧
    (extractPartitionKeyHeader cosmosTestDocument
      ["address", "state", "city"] = .undefinedMarker) := by
  refine ⟨?_, ?_, ?_, by decide, by decide, by decide⟩
  · intro doc h
    simp only [extractPartitionKeyHeader]
    rw [h]
    decide
  · intro doc path fields h
    simp only [extractPartitionKeyHeader]
    rw [h]
  · intro doc path h
    simp only [extractPartitionKeyHeader]
    rw [h]

/-- Witness for C5 at the test's concrete document body. -/
theorem cosmos_partition_key_extraction_spec_witness :
    extractPartitionKeyHeader cosmosTestDocument ["address", "state"] =
        .jsonText "[\"WA\"]" ∧
    extractPartitionKeyHeader cosmosTestDocument ["address"] =
        .undefinedMarker ∧
    extractPartitionKeyHeader cosmosTestDocument
        ["address", "state", "city"] = .undefinedMarker :=
  ⟨cosmos_partition_key_extraction_spec.1 cosmosTestDocument rfl,
   cosmos_partition_key_extraction_spec.2.1 cosmosTestDocument ["address"]
     [("street", .str "1 Microsoft Way"), ("city", .str "Redmond"),
      ("state", .str "WA"), ("zip code", .num 98052)] rfl,
   cosmos_partition_key_extraction_spec.2.2.1 cosmosTestDocument
     ["address", "state", "city"] rfl⟩

/-- C6: `replace_item` conditioned on a stale etag fails with HTTP 412
`PRECONDITION_FAILED`; supplying an `etag` without a `match_condition`
raises `ValueError`; supplying `IfNotModified` or `IfModified` without an
`etag` raises `ValueError`; a non-`MatchConditions` `match_condition` raises
`TypeError`. -/
theorem cosmos_replace_item_etag_spec :
    (∀ (currentEtag newEtag staleEtag : String) (body : JsonVal),
      staleEtag ≠ currentEtag →
      replaceItemWithIfMatch currentEtag newEtag (some staleEtag) body =
        .error (.httpError PRECONDITION_FAILED)) ∧
    (∀ e : String,
      validateMatchConditionKwargs (some e) .unspecified =
        .error .valueError) ∧
    (validateMatchConditionKwargs none .ifNotModified =
      .error .valueError) ∧
    (validateMatchConditionKwargs none .ifModified = .error .valueError) ∧
    (∀ etag : Option String,
      validateMatchConditionKwargs etag .invalidType =
        .error .typeError) := by
  refine ⟨?_, fun _ => rfl, rfl, rfl, fun _ => rfl⟩
  intro currentEtag newEtag staleEtag body h
  simp [replaceItemWithIfMatch, h]

/-- Witness for C6: a concrete stale etag is rejected with 412. -/
theorem cosmos_replace_item_etag_spec_witness :
    replaceItemWithIfMatch "etagB" "etagC" (some "etagA") .null =
      .error (.httpError PRECONDITION_FAILED) :=
  cosmos_replace_item_etag_spec.1 "etagB" "etagC" "etagA" .null (by decide)

/-- Helper: reading just past the end of `l` in `l ++ [x]` yields `x`. -/
theorem requestHeap_getD_append_length (l : List HttpRequest)
    (x d : HttpRequest) : (l ++ [x]).getD l.length d = x := by
  simp [List.getD, List.getElem?_concat_length]

/-- Helper: `set` at an in-bounds index stores the given value. -/
theorem requestHeap_getD_set_self (l : List HttpRequest) (m : Nat)
    (a d : HttpRequest) (h : m < l.length) : (l.set m a).getD m d = a := by
  simp [List.getD, List.getElem?_set_eq_of_lt a h]

/-- C7: `_send_request` leaves the caller's request object unchanged (it
mutates only a deep copy) and sends through the pipeline a copy of the
request whose URL has been formatted against the client's base URL, all
other fields unchanged. -/
theorem hybrid_send_request_spec :
    (∀ (client : ARMPipelineClient) (heap : RequestHeap) (request : Nat)
        (stream : Bool),
      request < heap.length →
      ((HybridComputeManagementClient.send_request client heap request
          stream).1)[request]? = heap[request]?) ∧
    (∀ (client : ARMPipelineClient) (heap : RequestHeap) (request : Nat)
        (stream : Bool),
      (HybridComputeManagementClient.send_request client heap request
          stream).2 =
        client.send_request
          { heap.getD request default with
            url := client.format_url (heap.getD request default).url }
          stream) := by
  constructor
  · intro client heap request stream hlt
    simp only [HybridComputeManagementClient.send_request,
      RequestHeap.deepcopy, RequestHeap.setUrl]
    rw [List.getElem?_set_ne (Nat.ne_of_gt hlt)]
    simp [List.getElem?_append_left hlt]
  · intro client heap request stream
    simp only [HybridComputeManagementClient.send_request,
      RequestHeap.deepcopy, RequestHeap.setUrl]
    rw [requestHeap_getD_append_length, requestHeap_getD_set_self]
    simp

/-- Witness for C7 at a concrete client and single-request heap. -/
theorem hybrid_send_request_spec_witness :
    ((HybridComputeManagementClient.send_request demoArmClient [demoRequest]
        0 false).1)[0]? = [demoRequest][0]? ∧
    (HybridComputeManagementClient.send_request demoArmClient [demoRequest]
        0 false).2 =
      demoArmClient.send_request
        { List.getD [demoRequest] 0 default with
          url := demoArmClient.format_url
            (List.getD [demoRequest] 0 default).url } false :=
  ⟨hybrid_send_request_spec.1 demoArmClient [demoRequest] 0 false
      (by decide),
   hybrid_send_request_spec.2 demoArmClient [demoRequest] 0 false⟩

/-- C8: `MockStorageTransport.send` is a pure function of the request: GET
yields 200 with body `Hello Async World!` and carries a Content-MD5 header
exactly when the request carries `x-ms-range-get-content-md5`; HEAD yields
200 with an empty body; PUT yields 201 Created; DELETE yields 202 Accepted;
every other method raises `ValueError`. -/
theorem mock_storage_transport_send_spec :
    (∀ req : HttpRequest, req.method = "GET" →
      ∃ r, MockStorageTransport.send req = .ok r ∧ r.status = 200 ∧
        r.body = "Hello Async World!" ∧
        hasHeader r.headers "Content-MD5" =
          hasHeader req.headers "x-ms-range-get-content-md5") ∧
    (∀ req : HttpRequest, req.method = "HEAD" →
      ∃ r, MockStorageTransport.send req = .ok r ∧ r.status = 200 ∧
        r.body = "") ∧
    (∀ req : HttpRequest, req.method = "PUT" →
      ∃ r, MockStorageTransport.send req = .ok r ∧ r.status = 201 ∧
        r.reason = "Created") ∧
    (∀ req : HttpRequest, req.method = "DELETE" →
      ∃ r, MockStorageTransport.send req = .ok r ∧ r.status = 202 ∧
        r.reason = "Accepted") ∧
    (∀ req : HttpRequest, req.method ≠ "GET" → req.method ≠ "HEAD" →
      req.method ≠ "PUT" → req.method ≠ "DELETE" →
      MockStorageTransport.send req = .error .valueError) := by
  refine ⟨?_, ?_, ?_, ?_, ?_⟩
  · intro req h
    cases hm : hasHeader req.headers "x-ms-range-get-content-md5"
    · refine ⟨{ status := 200, reason := "OK",
                body := "Hello Async World!",
                headers := [("Content-Type", "application/octet-stream"),
                            ("Content-Range", "bytes 0-17/18"),
                            ("Content-Length", "18")] }, ?_, rfl, rfl, ?_⟩
      · simp [MockStorageTransport.send, h, hm]
      · decide
    · refine ⟨{ status := 200, reason := "OK",
                body := "Hello Async World!",
                headers := [("Content-Type", "application/octet-stream"),
                            ("Content-Range", "bytes 0-17/18"),
                            ("Content-Length", "18"),
                            ("Content-MD5", "I3pVbaOCUTom+G9F9uKFoA==")] },
        ?_, rfl, rfl, ?_⟩
      · simp [MockStorageTransport.send, h, hm]
      · decide
  · intro req h
    refine ⟨{ status := 200, reason := "OK", body := "",
              headers := [("Content-Type", "application/octet-stream"),
                          ("Content-Length", "1024")] }, ?_, rfl, rfl⟩
    simp [MockStorageTransport.send, h]
  · intro req h
    refine ⟨{ status := 201, reason := "Created", body := "",
              headers := [("Content-Length", "0")] }, ?_, rfl, rfl⟩
    simp [MockStorageTransport.send, h]
  · intro req h
    refine ⟨{ status := 202, reason := "Accepted", body := "",
              headers := [("Content-Length", "0")] }, ?_, rfl, rfl⟩
    simp [MockStorageTransport.send, h]
  · intro req h1 h2 h3 h4
    simp [MockStorageTransport.send, h1, h2, h3, h4]

/-- Witness for C8 at concrete GET (with and without the MD5 range header)
and PATCH requests. -/
theorem mock_storage_transport_send_spec_witness :
    (∃ r, MockStorageTransport.send demoMd5Request = .ok r ∧
      r.status = 200 ∧ r.body = "Hello Async World!" ∧
      hasHeader r.headers "Content-MD5" =
        hasHeader demoMd5Request.headers "x-ms-range-get-content-md5") ∧
    (∃ r, MockStorageTransport.send demoRequest = .ok r ∧ r.status = 200 ∧
      r.body = "Hello Async World!" ∧
      hasHeader r.headers "Content-MD5" =
        hasHeader demoRequest.headers "x-ms-range-get-content-md5") ∧
    MockStorageTransport.send demoPatchRequest = .error .valueError :=
  ⟨mock_storage_transport_send_spec.1 demoMd5Request rfl,
   mock_storage_transport_send_spec.1 demoRequest rfl,
   mock_storage_transport_send_spec.2.2.2.2 demoPatchRequest (by decide)
     (by decide) (by decide) (by decide)⟩

end AzureSDK
